import Mathlib

/-!
Verification of the order-pricing computation in
`src/price-order/index.js` (final, split-phase version).

The source works on JavaScript numbers and uses the `Infinity` sentinel
for "no threshold".  Following the specification's design note, the
unbounded threshold is modelled explicitly: a threshold is `Option ℚ`,
where `none` stands for the infinite sentinel.  All other numbers are
rationals.
-/

/-- A threshold field of the source: `some t` is a finite cutoff, `none`
models the `Infinity` sentinel meaning "never reached". -/
abbrev Threshold := Option ℚ

/-- The comparison `x > threshold` as the source performs it: a finite
number never exceeds the infinite sentinel. -/
def exceedsThreshold (x : ℚ) : Threshold → Bool
  | some t => decide (t < x)
  | none => false

/-- The expression `Math.max(x - threshold, 0)` of the source: with the
infinite sentinel the difference is negatively infinite, so the result
is `0`. -/
def unitsAboveThreshold (x : ℚ) : Threshold → ℚ
  | some t => max (x - t) 0
  | none => 0

/-- The `product` record: `basePrice`, `discountThreshold`,
`discountRate`. -/
structure Product where
  basePrice : ℚ
  discountThreshold : Threshold
  discountRate : ℚ

/-- The `shippingMethod` record: `discountThreshold`, `discountFee`,
`feePerCase`. -/
structure ShippingMethod where
  discountThreshold : Threshold
  discountFee : ℚ
  feePerCase : ℚ

/-- The intermediate `priceData` record returned by
`calculatePricingData`: `{ basePrice, quantity, discount }`. -/
structure PricingData where
  basePrice : ℚ
  quantity : ℚ
  discount : ℚ

/-- `calculatePricingData(product, quantity)` from the source:
`basePrice = product.basePrice * quantity` and
`discount = Math.max(quantity - product.discountThreshold, 0)
 * product.basePrice * product.discountRate`. -/
def calculatePricingData (product : Product) (quantity : ℚ) : PricingData :=
  let basePrice := product.basePrice * quantity
  let discount :=
    unitsAboveThreshold quantity product.discountThreshold
      * product.basePrice * product.discountRate
  { basePrice := basePrice, quantity := quantity, discount := discount }

/-- `applyShipping(priceData, shippingMethod)` from the source:
`shippingPerCase` is `shippingMethod.discountFee` when
`priceData.basePrice > shippingMethod.discountThreshold` and
`shippingMethod.feePerCase` otherwise;
`shippingCost = priceData.quantity * shippingPerCase`;
the result is `priceData.basePrice - priceData.discount + shippingCost`. -/
def applyShipping (priceData : PricingData) (shippingMethod : ShippingMethod) : ℚ :=
  let shippingPerCase :=
    if exceedsThreshold priceData.basePrice shippingMethod.discountThreshold
    then shippingMethod.discountFee
    else shippingMethod.feePerCase
  let shippingCost := priceData.quantity * shippingPerCase
  let price := priceData.basePrice - priceData.discount + shippingCost
  price

/-- `priceOrder(product, quantity, shippingMethod)` from the source:
runs `calculatePricingData` and feeds its result to `applyShipping`. -/
def priceOrder (product : Product) (quantity : ℚ)
    (shippingMethod : ShippingMethod) : ℚ :=
  let priceData := calculatePricingData product quantity
  let price := applyShipping priceData shippingMethod
  price

/-- The volume discount as the specification words it:
`max(quantity - discountThreshold, 0) * basePrice * discountRate`, and
always zero when the threshold is unbounded. -/
def volumeDiscountSpec (product : Product) (quantity : ℚ) : ℚ :=
  match product.discountThreshold with
  | some t => max (quantity - t) 0 * product.basePrice * product.discountRate
  | none => 0

/-- C1: phase 1 computes the discount
`(quantity - discountThreshold) * basePrice * discountRate` when the
quantity strictly exceeds a finite discount threshold, and `0` when the
quantity is at or below it; with an unbounded threshold the discount is
`0`. -/
theorem calculatePricingData_discount_cases (p : Product) (q : ℚ) :
    (∀ t : ℚ, p.discountThreshold = some t →
      (t < q → (calculatePricingData p q).discount
        = (q - t) * p.basePrice * p.discountRate) ∧
      (q ≤ t → (calculatePricingData p q).discount = 0)) ∧
    (p.discountThreshold = none → (calculatePricingData p q).discount = 0) := by
  constructor
  · intro t ht
    constructor
    · intro hlt
      have hmax : max (q - t) 0 = q - t :=
        max_eq_left (by linarith)
      simp [calculatePricingData, unitsAboveThreshold, ht, hmax]
    · intro hle
      have hmax : max (q - t) 0 = 0 :=
        max_eq_right (by linarith)
      simp [calculatePricingData, unitsAboveThreshold, ht, hmax]
  · intro hn
    simp [calculatePricingData, unitsAboveThreshold, hn]

/-- Concrete instance of `calculatePricingData_discount_cases`: with a
unit price of `10`, a threshold of `1` and a rate of `1/10`, ordering
`10` units yields a discount of `(10 - 1) * 10 * (1/10)`. -/
theorem calculatePricingData_discount_cases_witness :
    (calculatePricingData ⟨10, some 1, 1/10⟩ 10).discount
      = (10 - 1) * 10 * (1/10) :=
  ((calculatePricingData_discount_cases ⟨10, some 1, 1/10⟩ 10).1 1 rfl).1
    (by norm_num)

/-- C2: `applyShipping` selects the per-case fee by a strict
greater-than comparison of `basePrice` against a finite shipping
threshold, and a base price exactly at the threshold uses
`feePerCase`. -/
theorem applyShipping_tierSelection (pd : PricingData) (s : ShippingMethod)
    (t : ℚ) (h : s.discountThreshold = some t) :
    applyShipping pd s
      = pd.basePrice - pd.discount
        + pd.quantity * (if t < pd.basePrice then s.discountFee else s.feePerCase) ∧
    (pd.basePrice = t → applyShipping pd s
      = pd.basePrice - pd.discount + pd.quantity * s.feePerCase) := by
  constructor
  · by_cases hlt : t < pd.basePrice <;>
      simp [applyShipping, exceedsThreshold, h, hlt]
  · intro he
    simp [applyShipping, exceedsThreshold, h, he]

/-- Concrete instance of `applyShipping_tierSelection`: a base price of
`100` exceeds the shipping threshold `1`, so the discounted fee `1` is
charged per case. -/
theorem applyShipping_tierSelection_witness :
    applyShipping ⟨100, 10, 0⟩ ⟨some 1, 1, 0⟩
      = 100 - 0 + 10 * (if (1:ℚ) < 100 then 1 else 0) :=
  (applyShipping_tierSelection ⟨100, 10, 0⟩ ⟨some 1, 1, 0⟩ 1 rfl).1

/-- C3: `applyShipping` returns
`basePrice - discount + quantity * shippingPerCase`, where
`shippingPerCase` is the tier-selected per-case fee. -/
theorem applyShipping_result (pd : PricingData) (s : ShippingMethod) :
    applyShipping pd s
      = pd.basePrice - pd.discount
        + pd.quantity * (if exceedsThreshold pd.basePrice s.discountThreshold
                         then s.discountFee else s.feePerCase) := by
  by_cases hb : exceedsThreshold pd.basePrice s.discountThreshold <;>
    simp [applyShipping, hb]

/-- C4: `priceOrder` is exactly the composition of the two phases:
`applyShipping(calculatePricingData(product, quantity), shippingMethod)`,
with no independent logic. -/
theorem priceOrder_composes (p : Product) (q : ℚ) (s : ShippingMethod) :
    priceOrder p q s = applyShipping (calculatePricingData p q) s := rfl

/-- C5: the `PricingData` record produced by phase 1 carries exactly
`basePrice = product.basePrice * quantity`, the input quantity
unchanged, and the computed volume discount. -/
theorem calculatePricingData_fields (p : Product) (q : ℚ) :
    (calculatePricingData p q).basePrice = p.basePrice * q ∧
    (calculatePricingData p q).quantity = q ∧
    (calculatePricingData p q).discount = volumeDiscountSpec p q := by
  refine ⟨rfl, rfl, ?_⟩
  cases h : p.discountThreshold with
  | some t => simp [calculatePricingData, unitsAboveThreshold, volumeDiscountSpec, h]
  | none => simp [calculatePricingData, unitsAboveThreshold, volumeDiscountSpec, h]

/-- C6: with non-negative unit price, threshold, rate and quantity,
phase 1 produces a non-negative base price and a non-negative
discount. -/
theorem calculatePricingData_nonneg (p : Product) (q : ℚ)
    (hbp : 0 ≤ p.basePrice) (hrate : 0 ≤ p.discountRate) (hq : 0 ≤ q)
    (hth : ∀ t : ℚ, p.discountThreshold = some t → 0 ≤ t) :
    0 ≤ (calculatePricingData p q).basePrice ∧
    0 ≤ (calculatePricingData p q).discount := by
  constructor
  · exact mul_nonneg hbp hq
  · have hu : 0 ≤ unitsAboveThreshold q p.discountThreshold := by
      cases h : p.discountThreshold with
      | some t => simp [unitsAboveThreshold]
      | none => simp [unitsAboveThreshold]
    exact mul_nonneg (mul_nonneg hu hbp) hrate

/-- Concrete instance of `calculatePricingData_nonneg`: the record for
the unit price `10`, threshold `1`, rate `1/10` and quantity `10` has a
non-negative base price and discount. -/
theorem calculatePricingData_nonneg_witness :
    0 ≤ (calculatePricingData ⟨10, some 1, 1/10⟩ 10).basePrice ∧
    0 ≤ (calculatePricingData ⟨10, some 1, 1/10⟩ 10).discount :=
  calculatePricingData_nonneg ⟨10, some 1, 1/10⟩ 10 (by norm_num)
    (by norm_num) (by norm_num)
    (by intro t ht; injection ht with h; rw [← h]; norm_num)

/-- C7: with an unbounded discount threshold the discount of phase 1 is
zero, whatever the unit price, rate and quantity. -/
theorem calculatePricingData_discount_unbounded (p : Product) (q : ℚ)
    (h : p.discountThreshold = none) :
    (calculatePricingData p q).discount = 0 := by
  simp [calculatePricingData, unitsAboveThreshold, h]

/-- Concrete instance of `calculatePricingData_discount_unbounded`: the
unbounded-threshold product with unit price `10` and rate `10` earns no
discount on `10` units. -/
theorem calculatePricingData_discount_unbounded_witness :
    (calculatePricingData ⟨10, none, 10⟩ 10).discount = 0 :=
  calculatePricingData_discount_unbounded ⟨10, none, 10⟩ 10 rfl

/-- C8: for the product `{basePrice: 10, discountThreshold: 1,
discountRate: 0.1}`, quantity `10` and free shipping with an unbounded
threshold, `priceOrder` returns `91`. -/
theorem priceOrder_discount_scenario :
    priceOrder ⟨10, some 1, 1/10⟩ 10 ⟨none, 0, 0⟩ = 91 := by
  norm_num [priceOrder, calculatePricingData, applyShipping,
    exceedsThreshold, unitsAboveThreshold]

/-- C9: `priceOrder` is deterministic: equal inputs give equal
results.  It is a pure function of its arguments by construction of the
embedding, mirroring the source, which reads nothing outside its
parameters and assigns to none of them. -/
theorem priceOrder_deterministic (p₁ p₂ : Product) (q₁ q₂ : ℚ)
    (s₁ s₂ : ShippingMethod)
    (hp : p₁ = p₂) (hq : q₁ = q₂) (hs : s₁ = s₂) :
    priceOrder p₁ q₁ s₁ = priceOrder p₂ q₂ s₂ := by
  rw [hp, hq, hs]

/-- Concrete instance of `priceOrder_deterministic` at the discount
scenario input. -/
theorem priceOrder_deterministic_witness :
    priceOrder ⟨10, some 1, 1/10⟩ 10 ⟨none, 0, 0⟩
      = priceOrder ⟨10, some 1, 1/10⟩ 10 ⟨none, 0, 0⟩ :=
  priceOrder_deterministic ⟨10, some 1, 1/10⟩ ⟨10, some 1, 1/10⟩ 10 10
    ⟨none, 0, 0⟩ ⟨none, 0, 0⟩ rfl rfl rfl

/-- C10: the result of `applyShipping` is independent of the unused
tier: two shipping methods with the same threshold agree on the result
whenever they agree on the fee of the selected tier. -/
theorem applyShipping_unusedTier (pd : PricingData) (s₁ s₂ : ShippingMethod)
    (hth : s₁.discountThreshold = s₂.discountThreshold) :
    (exceedsThreshold pd.basePrice s₁.discountThreshold = true →
      s₁.discountFee = s₂.discountFee →
      applyShipping pd s₁ = applyShipping pd s₂) ∧
    (exceedsThreshold pd.basePrice s₁.discountThreshold = false →
      s₁.feePerCase = s₂.feePerCase →
      applyShipping pd s₁ = applyShipping pd s₂) := by
  constructor
  · intro hb hfee
    have hb₂ : exceedsThreshold pd.basePrice s₂.discountThreshold = true := by
      rw [← hth]; exact hb
    simp [applyShipping, hb, hb₂, hfee]
  · intro hb hfee
    have hb₂ : exceedsThreshold pd.basePrice s₂.discountThreshold = false := by
      rw [← hth]; exact hb
    simp [applyShipping, hb, hb₂, hfee]

/-- Concrete instance of `applyShipping_unusedTier`: with a base price
of `100` above the shipping threshold `1`, changing only `feePerCase`
from `0` to `7` leaves the total unchanged. -/
theorem applyShipping_unusedTier_witness :
    applyShipping ⟨100, 10, 0⟩ ⟨some 1, 1, 0⟩
      = applyShipping ⟨100, 10, 0⟩ ⟨some 1, 1, 7⟩ :=
  (applyShipping_unusedTier ⟨100, 10, 0⟩ ⟨some 1, 1, 0⟩ ⟨some 1, 1, 7⟩
    rfl).1 (by decide) rfl
